import Mathlib

/-!
Verification development for the thingweb WoT scripting API
(wot-typescript-definitions).

The repository declares the scripting surface of a Web-of-Things runtime:
Things with Properties, Actions and Events, DataSchema and SecurityScheme
variants, discovery filters, and an ExposedThing/ConsumedThing API.  The
declaration files contain no executable implementation, so the runtime
behaviour (the Interaction Model Engine of the specification) is modelled
here from the specification's words; the type-level facts (the DataSchema
and Security unions, method signatures) are embedded directly from the
declaration files.
-/

namespace WoT

/-! ## JSON-like values

Values exchanged through interactions.  The API types them as `any`; the
DataSchema validator of the specification is structural over exactly the
JSON shapes boolean / number / integer / string / object / array / null.
Numbers are modelled as integers (the declarations say nothing about
floating point; only ordering is used by `minimum`/`maximum`). -/

inductive Value where
  | vNull
  | vBool (b : Bool)
  | vInt (n : Int)
  | vStr (s : String)
  | vArr (xs : List Value)
  | vObj (fields : List (String × Value))
deriving Repr

mutual

/-- Structural equality on values ("structurally equal" in the API docs). -/
def valueBeq : Value → Value → Bool
  | .vNull, .vNull => true
  | .vBool a, .vBool b => a == b
  | .vInt a, .vInt b => a == b
  | .vStr a, .vStr b => a == b
  | .vArr xs, .vArr ys => valueListBeq xs ys
  | .vObj fs, .vObj gs => valueFieldsBeq fs gs
  | _, _ => false

def valueListBeq : List Value → List Value → Bool
  | [], [] => true
  | x :: xs, y :: ys => valueBeq x y && valueListBeq xs ys
  | _, _ => false

def valueFieldsBeq : List (String × Value) → List (String × Value) → Bool
  | [], [] => true
  | (k, v) :: fs, (l, w) :: gs => k == l && valueBeq v w && valueFieldsBeq fs gs
  | _, _ => false

end

/-! ## DataSchema

Embeds the closed union from src/index.d.ts (lines 285-328; identically in
src/unnamed/part_001 lines 297-340):

  type DataSchema = BooleanSchema | IntegerSchema | NumberSchema
                  | StringSchema | ObjectSchema | ArraySchema | NullSchema

Every variant extends BaseSchema, so every variant carries the shared
optional fields `const` and `enum`; the numeric variants carry optional
`minimum`/`maximum`, ObjectSchema carries `properties` and optional
`required`, ArraySchema carries `items` and optional `minItems`/`maxItems`.
The `type` field is a fixed string literal per variant, modelled by
`DataSchema.typeTag` below. -/

inductive DataSchema where
  | boolS (constV : Option Value) (enumV : Option (List Value))
  | intS (constV : Option Value) (enumV : Option (List Value))
      (minimum : Option Int) (maximum : Option Int)
  | numS (constV : Option Value) (enumV : Option (List Value))
      (minimum : Option Int) (maximum : Option Int)
  | strS (constV : Option Value) (enumV : Option (List Value))
  | objS (constV : Option Value) (enumV : Option (List Value))
      (properties : List (String × DataSchema)) (required : Option (List String))
  | arrS (constV : Option Value) (enumV : Option (List Value))
      (items : DataSchema) (minItems : Option Nat) (maxItems : Option Nat)
  | nullS (constV : Option Value) (enumV : Option (List Value))
deriving Repr

/-- The string literal held by each variant's `type` field. -/
def DataSchema.typeTag : DataSchema → String
  | .boolS _ _ => "boolean"
  | .intS _ _ _ _ => "integer"
  | .numS _ _ _ _ => "number"
  | .strS _ _ => "string"
  | .objS _ _ _ _ => "object"
  | .arrS _ _ _ _ _ => "array"
  | .nullS _ _ => "null"

/-- The shared `const` field (from BaseSchema), available on every variant. -/
def DataSchema.constOf : DataSchema → Option Value
  | .boolS c _ => c
  | .intS c _ _ _ => c
  | .numS c _ _ _ => c
  | .strS c _ => c
  | .objS c _ _ _ => c
  | .arrS c _ _ _ _ => c
  | .nullS c _ => c

/-- The shared `enum` field (from BaseSchema), available on every variant. -/
def DataSchema.enumOf : DataSchema → Option (List Value)
  | .boolS _ e => e
  | .intS _ e _ _ => e
  | .numS _ e _ _ => e
  | .strS _ e => e
  | .objS _ e _ _ => e
  | .arrS _ e _ _ _ => e
  | .nullS _ e => e

/-- Name-keyed association list lookup: first entry with the given key.
Name-keyed mappings (a Thing's properties/actions/events, an object
value's fields) are modelled as association lists. -/
def alistLookup {α : Type} : List (String × α) → String → Option α
  | [], _ => none
  | (k, v) :: rest, key => if k == key then some v else alistLookup rest key

/-- Replace the entry with the given key (no change when absent). -/
def alistUpdate {α : Type} (f : α → α) : List (String × α) → String → List (String × α)
  | [], _ => []
  | (k, v) :: rest, key =>
      if k == key then (k, f v) :: rest else (k, v) :: alistUpdate f rest key

/-- Remove the first entry with the given key. -/
def alistRemove {α : Type} : List (String × α) → String → List (String × α)
  | [], _ => []
  | (k, v) :: rest, key => if k == key then rest else (k, v) :: alistRemove rest key

/-- Key lookup in an object value's field list. -/
def lookupField : List (String × Value) → String → Option Value
  | [], _ => none
  | (k, v) :: rest, key => if k == key then some v else lookupField rest key

/-- Shared const/enum check: when `const` is present the value must equal
it, when `enum` is present the value must be one of its members. -/
def constEnumOk (c : Option Value) (e : Option (List Value)) (v : Value) : Bool :=
  (match c with
   | some cv => valueBeq v cv
   | none => true) &&
  (match e with
   | some es => es.any (fun ev => valueBeq v ev)
   | none => true)

/-- Optional lower bound check for numeric schemas. -/
def minOk (lo : Option Int) (n : Int) : Bool :=
  match lo with
  | some l => decide (l ≤ n)
  | none => true

/-- Optional upper bound check for numeric schemas. -/
def maxOk (hi : Option Int) (n : Int) : Bool :=
  match hi with
  | some h => decide (n ≤ h)
  | none => true

/-- Optional array length bounds check. -/
def lengthOk (lo hi : Option Nat) (len : Nat) : Bool :=
  (match lo with
   | some l => decide (l ≤ len)
   | none => true) &&
  (match hi with
   | some h => decide (len ≤ h)
   | none => true)

/-- Every key named in `required` is present in the object's fields. -/
def requiredOk (req : Option (List String)) (fields : List (String × Value)) : Bool :=
  match req with
  | some ks => ks.all (fun k => (lookupField fields k).isSome)
  | none => true

mutual

/-- Modelled from the spec: the DataSchema Validator ("structural type
check; numeric bounds; required object keys; array length bounds",
recursing into object member schemas and array item schemas; shared
const/enum on every variant).  No implementation exists in the declaration
files; this is the validator the Request Dispatcher's Validating stage
uses. -/
def validate : DataSchema → Value → Bool
  | .boolS c e, v =>
      constEnumOk c e v &&
      (match v with
       | .vBool _ => true
       | _ => false)
  | .intS c e lo hi, v =>
      constEnumOk c e v &&
      (match v with
       | .vInt n => minOk lo n && maxOk hi n
       | _ => false)
  | .numS c e lo hi, v =>
      constEnumOk c e v &&
      (match v with
       | .vInt n => minOk lo n && maxOk hi n
       | _ => false)
  | .strS c e, v =>
      constEnumOk c e v &&
      (match v with
       | .vStr _ => true
       | _ => false)
  | .objS c e props req, v =>
      constEnumOk c e v &&
      (match v with
       | .vObj fields => requiredOk req fields && validateProps props fields
       | _ => false)
  | .arrS c e items lo hi, v =>
      constEnumOk c e v &&
      (match v with
       | .vArr xs => lengthOk lo hi xs.length && xs.all (fun x => validate items x)
       | _ => false)
  | .nullS c e, v =>
      constEnumOk c e v &&
      (match v with
       | .vNull => true
       | _ => false)

/-- Each declared object member schema validates the corresponding field
when that field is present; absent non-required fields pass. -/
def validateProps : List (String × DataSchema) → List (String × Value) → Bool
  | [], _ => true
  | (k, sch) :: rest, fields =>
      (match lookupField fields k with
       | some v => validate sch v
       | none => true) && validateProps rest fields

end

/-! ## Interaction Model Engine

The declaration files contain no implementation; the engine below is
modelled from the specification (sections 3, 4.1 Interaction Store and
4.2 Request Dispatcher), against the API shapes of src/index.d.ts
(ExposedThing, lines 192-258) and src/unnamed/part_001. -/

/-- Error kinds of the specification's section 7. -/
inductive WoTError where
  | notFound
  | alreadyExists
  | notAllowed
  | schemaViolation
  | handlerFailure
deriving DecidableEq, Repr

/-- PropertyReadHandler (src/index.d.ts line 262): nullary, promises a value. -/
def PropertyReadHandler : Type := Unit → Except WoTError Value

/-- PropertyWriteHandler (src/index.d.ts line 266): receives the written
value, promises the value to cache (decorator style, per the source's
comment "For now decorator in node-wot"). -/
def PropertyWriteHandler : Type := Value → Except WoTError Value

/-- ActionHandler (src/index.d.ts line 268). -/
def ActionHandler : Type := Value → Except WoTError Value

/-- Runtime state of one Property: schema, flags, cached value and the
optional specific handlers (spec 3 "Property" and 4.1). -/
structure PropertyState where
  schema : DataSchema
  writable : Bool
  observable : Bool
  value : Value
  readHandler : Option PropertyReadHandler
  writeHandler : Option PropertyWriteHandler

/-- Runtime state of one Action: optional input/output schemas and the
optional specific handler. -/
structure ActionState where
  input : Option DataSchema
  output : Option DataSchema
  handler : Option ActionHandler

/-- Runtime state of one Event.  EventFragment (src/index.d.ts lines
140-142) declares no fields of its own. -/
structure EventState where

/-- PropertyFragment (src/index.d.ts lines 130-133): optional writable and
observable flags; the data schema rides in the fragment (spec: "the data
schema provided by the property argument"). -/
structure PropertyFragment where
  schema : DataSchema
  writable : Option Bool
  observable : Option Bool

/-- ActionFragment (src/index.d.ts lines 135-138). -/
structure ActionFragment where
  input : Option DataSchema
  output : Option DataSchema

/-- EventFragment (src/index.d.ts lines 140-142): no own fields. -/
structure EventFragment where

/-- Runtime state of an ExposedThing: identity, metadata and the three
name-keyed interaction mappings, plus the wildcard handler slots of the
Interaction Store ("a wildcard handler applies to any interaction of that
kind lacking a specific one"). -/
structure Thing where
  id : String
  name : String
  description : Option String
  support : Option String
  properties : List (String × PropertyState)
  actions : List (String × ActionState)
  events : List (String × EventState)
  anyReadHandler : Option PropertyReadHandler
  anyWriteHandler : Option PropertyWriteHandler
  anyActionHandler : Option ActionHandler

/-- A value of the schema's kind, used to seed the cache when `addProperty`
is called without an initial value. -/
def defaultValue : DataSchema → Value
  | .boolS _ _ => .vBool false
  | .intS _ _ _ _ => .vInt 0
  | .numS _ _ _ _ => .vInt 0
  | .strS _ _ => .vStr ""
  | .objS _ _ _ _ => .vObj []
  | .arrS _ _ _ _ _ => .vArr []
  | .nullS _ _ => .vNull

/-- Build the initial PropertyState from a fragment: `writable` defaults
to true, `observable` to false (spec 3; ThingPropertyInit of
src/index.d.ts lines 612-621). -/
def mkProperty (frag : PropertyFragment) (v : Value) : PropertyState :=
  ⟨frag.schema, frag.writable.getD true, frag.observable.getD false, v, none, none⟩

/-- Modelled from the spec: Interaction Store `define` for Properties
(ExposedThing.addProperty, src/index.d.ts line 206).  Fails with
AlreadyExists on a duplicate name; a supplied initial value is validated
against the fragment's schema (spec 2: the store "depends on DataSchema
Validator for validating initial values"). -/
def addProperty (t : Thing) (name : String) (frag : PropertyFragment)
    (init : Option Value) : Except WoTError Thing :=
  match alistLookup t.properties name with
  | some _ => .error .alreadyExists
  | none =>
      match init with
      | some i =>
          if validate frag.schema i then
            .ok { t with properties := t.properties ++ [(name, mkProperty frag i)] }
          else .error .schemaViolation
      | none =>
          .ok { t with properties :=
                  t.properties ++ [(name, mkProperty frag (defaultValue frag.schema))] }

/-- Modelled from the spec: Interaction Store `undefine` for Properties
(ExposedThing.removeProperty, src/index.d.ts line 211). -/
def removeProperty (t : Thing) (name : String) : Except WoTError Thing :=
  match alistLookup t.properties name with
  | some _ => .ok { t with properties := alistRemove t.properties name }
  | none => .error .notFound

/-- Modelled from the spec: ExposedThing.addAction (src/index.d.ts line
216, the revision whose signature takes no handler: an Action starts with
no handler installed). -/
def addAction (t : Thing) (name : String) (frag : ActionFragment) :
    Except WoTError Thing :=
  match alistLookup t.actions name with
  | some _ => .error .alreadyExists
  | none => .ok { t with actions := t.actions ++ [(name, ⟨frag.input, frag.output, none⟩)] }

/-- Modelled from the spec: ExposedThing.removeAction (src/index.d.ts line 221). -/
def removeAction (t : Thing) (name : String) : Except WoTError Thing :=
  match alistLookup t.actions name with
  | some _ => .ok { t with actions := alistRemove t.actions name }
  | none => .error .notFound

/-- Modelled from the spec: ExposedThing.addEvent (src/index.d.ts line 226). -/
def addEvent (t : Thing) (name : String) (_frag : EventFragment) :
    Except WoTError Thing :=
  match alistLookup t.events name with
  | some _ => .error .alreadyExists
  | none => .ok { t with events := t.events ++ [(name, ⟨⟩)] }

/-- Modelled from the spec: ExposedThing.removeEvent (src/index.d.ts line 231). -/
def removeEvent (t : Thing) (name : String) : Except WoTError Thing :=
  match alistLookup t.events name with
  | some _ => .ok { t with events := alistRemove t.events name }
  | none => .error .notFound

/-- Modelled from the spec: ExposedThing.setPropertyReadHandler
(src/index.d.ts line 241). `none` as the name sets the wildcard slot
("otherwise sets it for reading any property"). -/
def setPropertyReadHandler (t : Thing) (name : Option String)
    (h : PropertyReadHandler) : Except WoTError Thing :=
  match name with
  | none => .ok { t with anyReadHandler := some h }
  | some n =>
      match alistLookup t.properties n with
      | some _ =>
          .ok { t with properties :=
                  alistUpdate (fun p => { p with readHandler := some h }) t.properties n }
      | none => .error .notFound

/-- Modelled from the spec: ExposedThing.setPropertyWriteHandler
(src/index.d.ts line 249). -/
def setPropertyWriteHandler (t : Thing) (name : Option String)
    (h : PropertyWriteHandler) : Except WoTError Thing :=
  match name with
  | none => .ok { t with anyWriteHandler := some h }
  | some n =>
      match alistLookup t.properties n with
      | some _ =>
          .ok { t with properties :=
                  alistUpdate (fun p => { p with writeHandler := some h }) t.properties n }
      | none => .error .notFound

/-- Modelled from the spec: ExposedThing.setActionHandler
(src/index.d.ts line 257). -/
def setActionHandler (t : Thing) (name : Option String) (h : ActionHandler) :
    Except WoTError Thing :=
  match name with
  | none => .ok { t with anyActionHandler := some h }
  | some n =>
      match alistLookup t.actions n with
      | some _ =>
          .ok { t with actions :=
                  alistUpdate (fun a => { a with handler := some h }) t.actions n }
      | none => .error .notFound

/-- Which user handler a dispatched request executed (spec 4.2 Executing). -/
inductive HandlerKind where
  | readH
  | writeH
  | invokeH
deriving DecidableEq, Repr

/-- One executed handler invocation, recorded by the Request Dispatcher. -/
structure HandlerCall where
  kind : HandlerKind
  name : String
deriving DecidableEq, Repr

/-- Outcome of one dispatched request: the promise settlement, the Thing
state afterwards, the handler invocations that ran, and the
property-change notifications scheduled for the Observable Hub. -/
structure Outcome (α : Type) where
  result : Except WoTError α
  thing : Thing
  calls : List HandlerCall
  notes : List (String × Value)

/-- Specific handler wins over the wildcard slot (spec 4.1: "a specific
handler always takes precedence"). -/
def resolvedRead (t : Thing) (p : PropertyState) : Option PropertyReadHandler :=
  match p.readHandler with
  | some h => some h
  | none => t.anyReadHandler

def resolvedWrite (t : Thing) (p : PropertyState) : Option PropertyWriteHandler :=
  match p.writeHandler with
  | some h => some h
  | none => t.anyWriteHandler

def resolvedAction (t : Thing) (a : ActionState) : Option ActionHandler :=
  match a.handler with
  | some h => some h
  | none => t.anyActionHandler

/-- Replace a property's cached value. -/
def setCache (t : Thing) (name : String) (v : Value) : Thing :=
  { t with properties := alistUpdate (fun p => { p with value := v }) t.properties name }

/-- Modelled from the spec: Request Dispatcher for a Property read
(ThingProperty.read, src/index.d.ts line 169).  When no read handler is
resolved the cached value is returned (spec 4.1); a handler-backed read
updates the cache with the handler's result and schedules a change
notification (spec 4.2); a handler error surfaces as HandlerFailure. -/
def readProperty (t : Thing) (name : String) : Outcome Value :=
  match alistLookup t.properties name with
  | none => ⟨.error .notFound, t, [], []⟩
  | some p =>
      match resolvedRead t p with
      | none => ⟨.ok p.value, t, [], []⟩
      | some h =>
          match h () with
          | .ok v => ⟨.ok v, setCache t name v, [⟨.readH, name⟩], [(name, v)]⟩
          | .error _ => ⟨.error .handlerFailure, t, [⟨.readH, name⟩], []⟩

/-- Modelled from the spec: Request Dispatcher for a Property write
(ThingProperty.write, src/index.d.ts line 170).  The checks run in the
order: name existence (NotFound), the section-3 invariant "if
writable=false, write attempts fail with NotAllowed", then schema
validation "failing fast with SchemaViolation before any handler runs";
only then does the resolved write handler execute, its result replacing
the cache (or, with no handler, the written value replaces the cache) and
a change notification being scheduled — "a failed write never emits a
change". -/
def writeProperty (t : Thing) (name : String) (v : Value) : Outcome Unit :=
  match alistLookup t.properties name with
  | none => ⟨.error .notFound, t, [], []⟩
  | some p =>
      if p.writable = false then ⟨.error .notAllowed, t, [], []⟩
      else if validate p.schema v = false then ⟨.error .schemaViolation, t, [], []⟩
      else
        match resolvedWrite t p with
        | none => ⟨.ok (), setCache t name v, [], [(name, v)]⟩
        | some h =>
            match h v with
            | .ok v2 => ⟨.ok (), setCache t name v2, [⟨.writeH, name⟩], [(name, v2)]⟩
            | .error _ => ⟨.error .handlerFailure, t, [⟨.writeH, name⟩], []⟩

/-- The value validates against an optional schema; an absent schema
imposes no constraint (spec 3 "Action"). -/
def validateOpt (sch : Option DataSchema) (arg : Value) : Bool :=
  match sch with
  | some s => validate s arg
  | none => true

/-- The argument validates against the declared input schema. -/
def inputOk (a : ActionState) (arg : Value) : Bool :=
  validateOpt a.input arg

/-- Modelled from the spec: Request Dispatcher for an Action invocation
(ThingAction.invoke, src/index.d.ts line 175).  Name existence, then
input validation, then the resolved handler; with no handler installed
the invocation is a hard error (spec 9: "the engine described here
requires an explicit handler for invocation and treats its absence as a
hard error"). -/
def invokeAction (t : Thing) (name : String) (arg : Value) : Outcome Value :=
  match alistLookup t.actions name with
  | none => ⟨.error .notFound, t, [], []⟩
  | some a =>
      if inputOk a arg = false then ⟨.error .schemaViolation, t, [], []⟩
      else
        match resolvedAction t a with
        | none => ⟨.error .handlerFailure, t, [], []⟩
        | some h =>
            match h arg with
            | .ok r => ⟨.ok r, t, [⟨.invokeH, name⟩], []⟩
            | .error _ => ⟨.error .handlerFailure, t, [⟨.invokeH, name⟩], []⟩

/-- Modelled from the spec: subscribing to a Property's change stream
(ThingProperty.subscribe, src/index.d.ts line 171); the section-3
invariant "if observable=false, subscribe attempts fail the same way"
(NotAllowed). -/
def subscribeProperty (t : Thing) (name : String) : Except WoTError Unit :=
  match alistLookup t.properties name with
  | none => .error .notFound
  | some p => if p.observable then .ok () else .error .notAllowed

/-! ## Thing Description Builder and consumption

Modelled from the spec (4.4): the builder is a pure function from the
Interaction Store state to a TD document; "the Thing Description is an
opaque serialized document (JSON or JSON-LD) whose logical shape is the
Thing/Interaction/DataSchema model"; handlers and the value cache are not
part of the TD.  The document is a `Value`; the serialization layout
(field names) is chosen here since the declaration files leave the format
to the (absent) implementation. -/

/-- Optional single serialized field. -/
def optField (k : String) : Option Value → List (String × Value)
  | none => []
  | some v => [(k, v)]

/-- Serialized `const` field when present. -/
def constJson (c : Option Value) : List (String × Value) :=
  optField "const" c

/-- Serialized `enum` field when present. -/
def enumJson : Option (List Value) → List (String × Value)
  | none => []
  | some es => [("enum", .vArr es)]

/-- Serialized optional integer bound field. -/
def intBoundJson (k : String) : Option Int → List (String × Value)
  | none => []
  | some n => [(k, .vInt n)]

/-- Serialized optional array length bound field. -/
def natBoundJson (k : String) : Option Nat → List (String × Value)
  | none => []
  | some n => [(k, .vInt (Int.ofNat n))]

/-- Serialized `required` field when present. -/
def reqJson : Option (List String) → List (String × Value)
  | none => []
  | some ks => [("required", .vArr (ks.map Value.vStr))]

mutual

/-- The serialized field list of a DataSchema: the `type` tag, the shared
const/enum fields, and the variant-specific constraint fields, recursing
into object member schemas and the array item schema. -/
def schemaFieldsJson : DataSchema → List (String × Value)
  | .boolS c e => ("type", .vStr "boolean") :: (constJson c ++ enumJson e)
  | .intS c e lo hi =>
      ("type", .vStr "integer") ::
        (constJson c ++ enumJson e ++ intBoundJson "minimum" lo ++ intBoundJson "maximum" hi)
  | .numS c e lo hi =>
      ("type", .vStr "number") ::
        (constJson c ++ enumJson e ++ intBoundJson "minimum" lo ++ intBoundJson "maximum" hi)
  | .strS c e => ("type", .vStr "string") :: (constJson c ++ enumJson e)
  | .objS c e props req =>
      ("type", .vStr "object") :: ("properties", .vObj (schemaPropsJson props)) ::
        (constJson c ++ enumJson e ++ reqJson req)
  | .arrS c e items lo hi =>
      ("type", .vStr "array") :: ("items", .vObj (schemaFieldsJson items)) ::
        (constJson c ++ enumJson e ++
          natBoundJson "minItems" lo ++ natBoundJson "maxItems" hi)
  | .nullS c e => ("type", .vStr "null") :: (constJson c ++ enumJson e)

/-- Serialized object member schemas. -/
def schemaPropsJson : List (String × DataSchema) → List (String × Value)
  | [] => []
  | (k, s) :: rest => (k, .vObj (schemaFieldsJson s)) :: schemaPropsJson rest

end

/-- A DataSchema serialized as a JSON object value. -/
def schemaToJson (s : DataSchema) : Value := .vObj (schemaFieldsJson s)

mutual

/-- Fuel bound for parsing a serialized schema back. -/
def schemaSize : DataSchema → Nat
  | .objS _ _ props _ => 1 + schemaPropsSize props
  | .arrS _ _ items _ _ => 1 + schemaSize items
  | _ => 1

def schemaPropsSize : List (String × DataSchema) → Nat
  | [] => 1
  | (_, s) :: rest => 1 + schemaSize s + schemaPropsSize rest

end

mutual

/-- Fuel bound for parsing an arbitrary value. -/
def valueSize : Value → Nat
  | .vArr xs => 1 + valueListSize xs
  | .vObj fs => 1 + valueFieldsSize fs
  | _ => 1

def valueListSize : List Value → Nat
  | [] => 1
  | x :: xs => 1 + valueSize x + valueListSize xs

def valueFieldsSize : List (String × Value) → Nat
  | [] => 1
  | (_, v) :: fs => 1 + valueSize v + valueFieldsSize fs

end

/-- Parse the optional `enum` field of a serialized schema. -/
def parseEnumField (fields : List (String × Value)) : Option (Option (List Value)) :=
  match lookupField fields "enum" with
  | none => some none
  | some (.vArr es) => some (some es)
  | some _ => none

/-- Parse an optional integer-valued field of a serialized schema. -/
def parseIntField (fields : List (String × Value)) (k : String) : Option (Option Int) :=
  match lookupField fields k with
  | none => some none
  | some (.vInt n) => some (some n)
  | some _ => none

/-- Parse an optional array-length-bound field of a serialized schema. -/
def parseNatField (fields : List (String × Value)) (k : String) : Option (Option Nat) :=
  match lookupField fields k with
  | none => some none
  | some (.vInt n) => if n < 0 then none else some (some n.toNat)
  | some _ => none

/-- All elements are strings. -/
def strList : List Value → Option (List String)
  | [] => some []
  | .vStr s :: rest => (strList rest).map (fun ss => s :: ss)
  | _ => none

/-- Parse the optional `required` field of a serialized object schema. -/
def parseReqField (fields : List (String × Value)) : Option (Option (List String)) :=
  match lookupField fields "required" with
  | none => some none
  | some (.vArr vs) => (strList vs).map some
  | some _ => none

mutual

/-- Fuelled parser from a JSON value back to a DataSchema, dispatching on
the `type` tag (spec 9: "validation becomes a switch over the tag"). -/
def jsonToSchemaF : Nat → Value → Option DataSchema
  | 0, _ => none
  | Nat.succ n, v =>
      match v with
      | .vObj fields =>
          match parseEnumField fields with
          | none => none
          | some e =>
              let c := lookupField fields "const"
              match lookupField fields "type" with
              | some (.vStr "boolean") => some (.boolS c e)
              | some (.vStr "integer") =>
                  match parseIntField fields "minimum", parseIntField fields "maximum" with
                  | some lo, some hi => some (.intS c e lo hi)
                  | _, _ => none
              | some (.vStr "number") =>
                  match parseIntField fields "minimum", parseIntField fields "maximum" with
                  | some lo, some hi => some (.numS c e lo hi)
                  | _, _ => none
              | some (.vStr "string") => some (.strS c e)
              | some (.vStr "object") =>
                  match lookupField fields "properties", parseReqField fields with
                  | some (.vObj pf), some req =>
                      match jsonToSchemaPropsF n pf with
                      | some props => some (.objS c e props req)
                      | none => none
                  | _, _ => none
              | some (.vStr "array") =>
                  match lookupField fields "items", parseNatField fields "minItems",
                      parseNatField fields "maxItems" with
                  | some iv, some lo, some hi =>
                      match jsonToSchemaF n iv with
                      | some items => some (.arrS c e items lo hi)
                      | none => none
                  | _, _, _ => none
              | some (.vStr "null") => some (.nullS c e)
              | _ => none
      | _ => none

/-- Fuelled parser for serialized object member schemas. -/
def jsonToSchemaPropsF : Nat → List (String × Value) → Option (List (String × DataSchema))
  | 0, _ => none
  | Nat.succ _, [] => some []
  | Nat.succ n, (k, v) :: rest =>
      match jsonToSchemaF n v, jsonToSchemaPropsF n rest with
      | some s, some ss => some ((k, s) :: ss)
      | _, _ => none

end

/-- Parser from a JSON value to a DataSchema, with fuel derived from the
value itself. -/
def jsonToSchema (v : Value) : Option DataSchema :=
  jsonToSchemaF (valueSize v) v

/-- Serialized TD entry of one Property: its schema and its
writable/observable flags; the handlers and cached value are not part of
the TD. -/
def propertyTD (p : PropertyState) : Value :=
  .vObj [("schema", schemaToJson p.schema),
         ("writable", .vBool p.writable),
         ("observable", .vBool p.observable)]

/-- Serialized TD entry of one Action: optional input/output schemas. -/
def actionTD (a : ActionState) : Value :=
  .vObj (optField "input" (a.input.map schemaToJson) ++
         optField "output" (a.output.map schemaToJson))

/-- Modelled from the spec: the Thing Description Builder (4.4), a pure
function from Interaction Store state to a TD document. -/
def buildTD (t : Thing) : Value :=
  .vObj [("id", .vStr t.id),
         ("name", .vStr t.name),
         ("properties", .vObj (t.properties.map (fun kv => (kv.1, propertyTD kv.2)))),
         ("actions", .vObj (t.actions.map (fun kv => (kv.1, actionTD kv.2)))),
         ("events", .vObj (t.events.map (fun kv => (kv.1, Value.vObj []))))]

/-- A consumed Property: schema and flags only — a ConsumedThing is a
"read/observe/invoke proxy" and carries no handlers. -/
structure ConsumedProperty where
  schema : DataSchema
  writable : Bool
  observable : Bool
deriving Repr

/-- A consumed Action: optional input/output schemas. -/
structure ConsumedAction where
  input : Option DataSchema
  output : Option DataSchema
deriving Repr

/-- The Interaction Store shape recovered by consuming a TD. -/
structure ConsumedThingState where
  id : String
  name : String
  properties : List (String × ConsumedProperty)
  actions : List (String × ConsumedAction)
  events : List String
deriving Repr

/-- Parse one serialized Property entry. -/
def parsePropertyTD (v : Value) : Option ConsumedProperty :=
  match v with
  | .vObj fields =>
      match lookupField fields "schema", lookupField fields "writable",
          lookupField fields "observable" with
      | some sv, some (.vBool w), some (.vBool o) =>
          (jsonToSchema sv).map (fun s => ⟨s, w, o⟩)
      | _, _, _ => none
  | _ => none

/-- Parse an optional serialized schema field. -/
def parseOptSchema : Option Value → Option (Option DataSchema)
  | none => some none
  | some v => (jsonToSchema v).map some

/-- Parse one serialized Action entry. -/
def parseActionTD (v : Value) : Option ConsumedAction :=
  match v with
  | .vObj fields =>
      match parseOptSchema (lookupField fields "input"),
          parseOptSchema (lookupField fields "output") with
      | some i, some o => some ⟨i, o⟩
      | _, _ => none
  | _ => none

/-- Parse the serialized Property mapping. -/
def parsePropsTD : List (String × Value) → Option (List (String × ConsumedProperty))
  | [] => some []
  | (k, v) :: rest =>
      match parsePropertyTD v, parsePropsTD rest with
      | some p, some ps => some ((k, p) :: ps)
      | _, _ => none

/-- Parse the serialized Action mapping. -/
def parseActionsTD : List (String × Value) → Option (List (String × ConsumedAction))
  | [] => some []
  | (k, v) :: rest =>
      match parseActionTD v, parseActionsTD rest with
      | some a, some rs => some ((k, a) :: rs)
      | _, _ => none

/-- Modelled from the spec: WoTFactory.consume (src/index.d.ts line 28)
materializing a ConsumedThing from a TD document. -/
def consumeTD (td : Value) : Option ConsumedThingState :=
  match td with
  | .vObj fields =>
      match lookupField fields "id", lookupField fields "name",
          lookupField fields "properties", lookupField fields "actions",
          lookupField fields "events" with
      | some (.vStr i), some (.vStr n), some (.vObj pf), some (.vObj af),
          some (.vObj ef) =>
          match parsePropsTD pf, parseActionsTD af with
          | some ps, some acts => some ⟨i, n, ps, acts, ef.map Prod.fst⟩
          | _, _ => none
      | _, _, _, _, _ => none
  | _ => none

/-- The consumed view of one Property state (handlers and cache dropped). -/
def consumedOfProperty (p : PropertyState) : ConsumedProperty :=
  ⟨p.schema, p.writable, p.observable⟩

/-- The consumed view of one Action state (handler dropped). -/
def consumedOfAction (a : ActionState) : ConsumedAction :=
  ⟨a.input, a.output⟩

/-- The consumed view of a whole Interaction Store: same names, same
schemas, same flags; handlers excluded. -/
def consumedOfThing (t : Thing) : ConsumedThingState :=
  ⟨t.id, t.name,
   t.properties.map (fun kv => (kv.1, consumedOfProperty kv.2)),
   t.actions.map (fun kv => (kv.1, consumedOfAction kv.2)),
   t.events.map Prod.fst⟩

/-! ## Thing Registry and the chaining API surface

Modelled from the spec (3 "Lifecycle", 9 "Global WoT singleton"): the
Thing Registry owns the ExposedThings; the scripting-surface mutators act
on a Thing denoted by a reference into the registry and return "a
reference to the same object for supporting chaining" (the doc comments
of ExposedThing, src/index.d.ts lines 236-257). -/

/-- The process-wide Thing Registry: reference-keyed ExposedThings. -/
def Registry : Type := List (Nat × Thing)

/-- Reference lookup in the registry. -/
def regLookup : Registry → Nat → Option Thing
  | [], _ => none
  | (r, t) :: rest, ref => if r == ref then some t else regLookup rest ref

/-- Replace the Thing a reference denotes. -/
def regUpdate (t2 : Thing) : Registry → Nat → Registry
  | [], _ => []
  | (r, t) :: rest, ref =>
      if r == ref then (r, t2) :: rest else (r, t) :: regUpdate t2 rest ref

/-- Run a Thing mutator on the object a reference denotes; on success the
registry holds the mutated object and the very same reference is handed
back to the caller. -/
def onThing (reg : Registry) (ref : Nat) (f : Thing → Except WoTError Thing) :
    Except WoTError (Registry × Nat) :=
  match regLookup reg ref with
  | none => .error .notFound
  | some t =>
      match f t with
      | .ok t2 => .ok (regUpdate t2 reg ref, ref)
      | .error e => .error e

/-- ExposedThing.addProperty at the scripting surface. -/
def apiAddProperty (reg : Registry) (ref : Nat) (name : String)
    (frag : PropertyFragment) (init : Option Value) : Except WoTError (Registry × Nat) :=
  onThing reg ref (fun t => addProperty t name frag init)

/-- ExposedThing.removeProperty at the scripting surface. -/
def apiRemoveProperty (reg : Registry) (ref : Nat) (name : String) :
    Except WoTError (Registry × Nat) :=
  onThing reg ref (fun t => removeProperty t name)

/-- ExposedThing.addAction at the scripting surface. -/
def apiAddAction (reg : Registry) (ref : Nat) (name : String) (frag : ActionFragment) :
    Except WoTError (Registry × Nat) :=
  onThing reg ref (fun t => addAction t name frag)

/-- ExposedThing.removeAction at the scripting surface. -/
def apiRemoveAction (reg : Registry) (ref : Nat) (name : String) :
    Except WoTError (Registry × Nat) :=
  onThing reg ref (fun t => removeAction t name)

/-- ExposedThing.addEvent at the scripting surface. -/
def apiAddEvent (reg : Registry) (ref : Nat) (name : String) (frag : EventFragment) :
    Except WoTError (Registry × Nat) :=
  onThing reg ref (fun t => addEvent t name frag)

/-- ExposedThing.removeEvent at the scripting surface. -/
def apiRemoveEvent (reg : Registry) (ref : Nat) (name : String) :
    Except WoTError (Registry × Nat) :=
  onThing reg ref (fun t => removeEvent t name)

/-- ExposedThing.setPropertyReadHandler at the scripting surface. -/
def apiSetPropertyReadHandler (reg : Registry) (ref : Nat) (name : Option String)
    (h : PropertyReadHandler) : Except WoTError (Registry × Nat) :=
  onThing reg ref (fun t => setPropertyReadHandler t name h)

/-- ExposedThing.setPropertyWriteHandler at the scripting surface. -/
def apiSetPropertyWriteHandler (reg : Registry) (ref : Nat) (name : Option String)
    (h : PropertyWriteHandler) : Except WoTError (Registry × Nat) :=
  onThing reg ref (fun t => setPropertyWriteHandler t name h)

/-- ExposedThing.setActionHandler at the scripting surface. -/
def apiSetActionHandler (reg : Registry) (ref : Nat) (name : Option String)
    (h : ActionHandler) : Except WoTError (Registry × Nat) :=
  onThing reg ref (fun t => setActionHandler t name h)

/-! ## Discovery

ThingFilter and DiscoveryMethod from src/index.d.ts lines 50-79; the
Discovery Matcher modelled from the spec (4.5). -/

/-- DiscoveryMethod (src/index.d.ts lines 70-79). -/
inductive DiscoveryMethod where
  | anyM
  | localM
  | directoryM
  | multicastM
deriving DecidableEq, Repr

/-- The matchable fields of a ThingFragment used as a discovery template
(src/index.d.ts lines 90-117: id, name, description, support). -/
structure FragmentTemplate where
  id : Option String
  name : Option String
  description : Option String
  support : Option String

/-- ThingFilter (src/index.d.ts lines 50-67): method, url, query and the
matching fragment, all optional. -/
structure ThingFilter where
  method : Option DiscoveryMethod
  url : Option String
  query : Option String
  fragment : Option FragmentTemplate

/-- A present fragment field must compare equal to the candidate's
corresponding field; an absent fragment field imposes no constraint. -/
def fieldOk (want : Option String) (actual : Option String) : Bool :=
  match want with
  | none => true
  | some w => actual == some w

/-- Modelled from the spec (4.5): a candidate Thing matches when every
field present in the fragment compares equal to the candidate's
corresponding field; an absent fragment imposes no constraint. -/
def fragMatchesThing (f : FragmentTemplate) (t : Thing) : Bool :=
  fieldOk f.id (some t.id) && fieldOk f.name (some t.name) &&
    fieldOk f.description t.description && fieldOk f.support t.support

def filterMatches (frag : Option FragmentTemplate) (t : Thing) : Bool :=
  match frag with
  | none => true
  | some f => fragMatchesThing f t

/-- Modelled from the spec: WoTFactory.discover (src/index.d.ts line 16)
for the `local` method — candidates are drawn only from the process's own
Thing Registry and the matching ones are emitted as a finite (completing)
sequence.  The directory/multicast methods solicit network collaborators
and are outside this model (`none`); the opaque `query` string is
delegated to a collaborator and imposes no constraint here. -/
def discover (filter : ThingFilter) (registry : List Thing) : Option (List Thing) :=
  match filter.method with
  | some .localM => some (registry.filter (fun t => filterMatches filter.fragment t))
  | _ => none

/-! ## Security schemes

Embeds the closed union of src/unnamed/part_001 lines 342-400 (the
declaration revision that includes NoSecurityScheme):

  type Security = NoSecurityScheme | BasicSecurityScheme
                | DigestSecurityScheme | BearerSecurityScheme
                | PopSecurityScheme | ApikeySecurityScheme
                | OAuth2SecurityScheme | PskScheme

Every variant extends SecurityScheme (optional description and proxyURI);
`inLoc` stands for the declaration's `in` field (a Lean keyword). -/

inductive Security where
  | nosec (description : Option String) (proxyURI : Option Value)
  | basic (description : Option String) (proxyURI : Option Value)
      (inLoc : String) (pname : Option String)
  | digest (description : Option String) (proxyURI : Option Value)
      (inLoc : String) (qop : String) (pname : Option String)
  | bearer (description : Option String) (proxyURI : Option Value)
      (alg : String) (format : String) (inLoc : String) (pname : Option String)
  | pop (description : Option String) (proxyURI : Option Value)
      (alg : String) (format : String) (inLoc : String) (pname : Option String)
  | apikey (description : Option String) (proxyURI : Option Value)
      (inLoc : String) (pname : Option String)
  | oauth2 (description : Option String) (proxyURI : Option Value)
      (authorizationUrl : String) (scopes : Option (List String)) (flow : String)
  | psk (description : Option String) (proxyURI : Option Value)

/-- The string literal held by each variant's `scheme` field. -/
def Security.schemeTag : Security → String
  | .nosec _ _ => "nosec"
  | .basic _ _ _ _ => "basic"
  | .digest _ _ _ _ _ => "digest"
  | .bearer _ _ _ _ _ _ => "bearer"
  | .pop _ _ _ _ _ _ => "pop"
  | .apikey _ _ _ _ => "apikey"
  | .oauth2 _ _ _ _ _ => "oauth2"
  | .psk _ _ => "psk"

/-! ## Declared method signatures

A small type-expression language for the declared promise types of the
scripting surface, transcribed from the declaration files. -/

inductive Ty where
  | voidT
  | anyT
  | stringT
  | promiseT (t : Ty)
deriving DecidableEq, Repr

/-- A declared method or function type: parameter types and return type. -/
structure MethodSig where
  params : List Ty
  ret : Ty
deriving DecidableEq, Repr

/-- ThingProperty.read (src/index.d.ts line 169): read(): Promise<any>. -/
def sigThingPropertyRead : MethodSig := ⟨[], .promiseT .anyT⟩

/-- ThingProperty.write (src/index.d.ts line 170):
write(value: any): Promise<void>. -/
def sigThingPropertyWrite : MethodSig := ⟨[.anyT], .promiseT .voidT⟩

/-- ThingAction.invoke (src/index.d.ts line 175):
invoke(parameter?: any): Promise<any>. -/
def sigThingActionInvoke : MethodSig := ⟨[.anyT], .promiseT .anyT⟩

/-- ConsumedThing.setProperty (src/src/wot.d.ts line 17):
setProperty(propertyName: string, newValue: any): Promise<any>. -/
def sigConsumedThingSetProperty : MethodSig := ⟨[.stringT, .anyT], .promiseT .anyT⟩

/-- ConsumedThing.getProperty (src/src/wot.d.ts line 18):
getProperty(propertyName: string): Promise<any>. -/
def sigConsumedThingGetProperty : MethodSig := ⟨[.stringT], .promiseT .anyT⟩

/-- PropertyWriteHandler (src/index.d.ts line 266, current revision):
(value: any) => Promise<any>. -/
def sigPropertyWriteHandler : MethodSig := ⟨[.anyT], .promiseT .anyT⟩

/-- PropertyWriteHandler of the oldest revision in the same file
(src/index.d.ts line 1087): (value: any) => Promise<void>. -/
def sigPropertyWriteHandlerOld : MethodSig := ⟨[.anyT], .promiseT .voidT⟩

/-! ## Concrete demonstration data

Closed inputs used to exercise the theorems below (the thermometer and
lamp examples of the specification's section 8). -/

/-- An unconstrained number schema. -/
def numSchema : DataSchema := .numS none none none none

/-- A read-only, non-observable number Property cached at 21, no handlers. -/
def roProp : PropertyState := ⟨numSchema, false, false, .vInt 21, none, none⟩

/-- A writable number Property cached at 21, no handlers. -/
def rwProp : PropertyState := ⟨numSchema, true, false, .vInt 21, none, none⟩

/-- A Thing holding only the read-only `temp` Property. -/
def roThing : Thing :=
  ⟨"urn:ro", "thermo", none, none, [("temp", roProp)], [], [], none, none, none⟩

/-- A Thing holding only the writable `temp` Property. -/
def rwThing : Thing :=
  ⟨"urn:rw", "thermo2", none, none, [("temp", rwProp)], [], [], none, none, none⟩

/-- A Thing with no interactions. -/
def emptyThing : Thing := ⟨"urn:new", "fresh", none, none, [], [], [], none, none, none⟩

/-- The read-only number Property fragment of the section-8 example. -/
def roFragment : PropertyFragment := ⟨numSchema, some false, none⟩

/-- The `reset` Action fragment of the section-8 example:
input null, output boolean. -/
def resetFragment : ActionFragment := ⟨some (.nullS none none), some (.boolS none none)⟩

/-- A Thing with one Property, one Action and one Event, for the chaining
demonstrations. -/
def demoThing : Thing :=
  ⟨"urn:demo", "demo", none, none, [("temp", rwProp)],
   [("reset", ⟨none, none, none⟩)], [("ev", ⟨⟩)], none, none, none⟩

/-- A registry owning `demoThing` under reference 0. -/
def demoRegistry : Registry := [(0, demoThing)]

/-- The discovery template matching on name `lamp1`. -/
def lampTemplate : FragmentTemplate := ⟨none, some "lamp1", none, none⟩

/-- The local discovery filter of the section-8 example. -/
def lampFilter : ThingFilter := ⟨some .localM, none, none, some lampTemplate⟩

/-- The Thing named lamp1. -/
def lamp1 : Thing := ⟨"urn:lamp1", "lamp1", none, none, [], [], [], none, none, none⟩

/-- The Thing named lamp2. -/
def lamp2 : Thing := ⟨"urn:lamp2", "lamp2", none, none, [], [], [], none, none, none⟩

end WoT

/-! # Theorems -/

namespace WoT

/-! ## Association list lemmas -/

theorem alistLookup_update {α : Type} (f : α → α) (l : List (String × α)) (k : String) :
    alistLookup (alistUpdate f l k) k = (alistLookup l k).map f := by
  induction l with
  | nil => rfl
  | cons hd tl ih =>
      obtain ⟨k2, v2⟩ := hd
      cases hkk : (k2 == k) <;> simp [alistLookup, alistUpdate, hkk, ih]

theorem alistLookup_append_of_none {α : Type} (l : List (String × α)) (k : String)
    (x : α) (h : alistLookup l k = none) :
    alistLookup (l ++ [(k, x)]) k = some x := by
  induction l with
  | nil => simp [alistLookup]
  | cons hd tl ih =>
      obtain ⟨k2, v2⟩ := hd
      cases hkk : (k2 == k)
      · simp [alistLookup, hkk] at h ⊢
        exact ih h
      · simp [alistLookup, hkk] at h

/-! ## C1: write-then-read on a handler-less Property -/

/-- C1 (amended: the Property must be writable).  On a writable Property
with no read or write handler installed (neither specific nor wildcard),
a schema-valid `writeProperty` resolves, replaces the value cache without
running any handler, and the subsequent `readProperty` resolves with
exactly the written value. -/
theorem write_then_read_returns_written (t : Thing) (name : String) (v : Value)
    (p : PropertyState) (hp : alistLookup t.properties name = some p)
    (hw : p.writable = true) (hv : validate p.schema v = true)
    (hr : p.readHandler = none) (hwh : p.writeHandler = none)
    (har : t.anyReadHandler = none) (haw : t.anyWriteHandler = none) :
    writeProperty t name v = ⟨.ok (), setCache t name v, [], [(name, v)]⟩ ∧
      (readProperty (setCache t name v) name).result = .ok v := by
  constructor
  · simp [writeProperty, hp, hw, hv, resolvedWrite, hwh, haw]
  · have hlook : alistLookup
        (alistUpdate (fun q => { q with value := v }) t.properties name) name
        = some { p with value := v } := by
      rw [alistLookup_update, hp]; rfl
    simp [readProperty, setCache, resolvedRead, hlook, hr, har]

/-- Witness for C1 at the thermometer example: write 22 to the writable
handler-less `temp`, then read it back. -/
theorem write_then_read_returns_written_witness :
    (alistLookup rwThing.properties "temp" = some rwProp ∧ rwProp.writable = true ∧
      validate rwProp.schema (.vInt 22) = true) ∧
    writeProperty rwThing "temp" (.vInt 22)
      = ⟨.ok (), setCache rwThing "temp" (.vInt 22), [], [("temp", .vInt 22)]⟩ ∧
    (readProperty (setCache rwThing "temp" (.vInt 22)) "temp").result = .ok (.vInt 22) :=
  ⟨⟨rfl, rfl, by decide⟩,
   (write_then_read_returns_written rwThing "temp" (.vInt 22) rwProp rfl rfl
      (by decide) rfl rfl rfl rfl).1,
   (write_then_read_returns_written rwThing "temp" (.vInt 22) rwProp rfl rfl
      (by decide) rfl rfl rfl rfl).2⟩

/-- Counterexample to C1 as frozen: on the read-only handler-less `temp`
Property (schema number, cached 21), writing the schema-valid 22 rejects
with NotAllowed, so write-then-read does not resolve with the written
value — the read still yields 21. -/
theorem write_then_read_counterexample :
    (validate roProp.schema (.vInt 22) = true ∧ roProp.readHandler = none ∧
      roProp.writeHandler = none ∧ roThing.anyReadHandler = none ∧
      roThing.anyWriteHandler = none) ∧
    (writeProperty roThing "temp" (.vInt 22)).result = .error .notAllowed ∧
    (readProperty (writeProperty roThing "temp" (.vInt 22)).thing "temp").result
      = .ok (.vInt 21) ∧
    Value.vInt 21 ≠ Value.vInt 22 := by
  refine ⟨⟨by decide, rfl, rfl, rfl, rfl⟩, rfl, rfl, by simp⟩

/-! ## C2: schema-violating writes -/

/-- C2 (amended: the Property must be writable).  Writing a value that
violates the schema of a writable Property fails with SchemaViolation,
runs no handler, emits no change notification, and leaves the Thing — in
particular the cached value — unchanged. -/
theorem invalid_write_rejected (t : Thing) (name : String) (v : Value)
    (p : PropertyState) (hp : alistLookup t.properties name = some p)
    (hw : p.writable = true) (hv : validate p.schema v = false) :
    writeProperty t name v = ⟨.error .schemaViolation, t, [], []⟩ := by
  simp [writeProperty, hp, hw, hv]

/-- Witness for C2: writing the string "hot" to the writable number
Property fails with SchemaViolation and changes nothing. -/
theorem invalid_write_rejected_witness :
    (alistLookup rwThing.properties "temp" = some rwProp ∧ rwProp.writable = true ∧
      validate rwProp.schema (.vStr "hot") = false) ∧
    writeProperty rwThing "temp" (.vStr "hot") = ⟨.error .schemaViolation, rwThing, [], []⟩ :=
  ⟨⟨rfl, rfl, by decide⟩,
   invalid_write_rejected rwThing "temp" (.vStr "hot") rwProp rfl rfl (by decide)⟩

/-- Counterexample to C2 as frozen: on the read-only `temp` Property the
schema-violating write of "hot" fails with NotAllowed, not
SchemaViolation — the writable check of C4's invariant runs first. -/
theorem invalid_write_counterexample :
    validate roProp.schema (.vStr "hot") = false ∧
    (writeProperty roThing "temp" (.vStr "hot")).result = .error .notAllowed ∧
    WoTError.notAllowed ≠ WoTError.schemaViolation :=
  ⟨by decide, rfl, by decide⟩

/-! ## C4: the NotAllowed invariant -/

/-- C4: a write attempt on a Property whose writable flag is false fails
with NotAllowed and changes nothing, so a handler-less read still resolves
with the previously cached value; a subscribe attempt on a Property whose
observable flag is false fails with NotAllowed as well. -/
theorem read_only_not_allowed (t : Thing) (name : String) (p : PropertyState)
    (hp : alistLookup t.properties name = some p) :
    (p.writable = false →
      (∀ v, writeProperty t name v = ⟨.error .notAllowed, t, [], []⟩) ∧
      (resolvedRead t p = none → (readProperty t name).result = .ok p.value)) ∧
    (p.observable = false → subscribeProperty t name = .error .notAllowed) := by
  refine ⟨fun hw => ⟨fun v => ?_, fun hr => ?_⟩, fun ho => ?_⟩
  · simp [writeProperty, hp, hw]
  · simp [readProperty, hp, hr]
  · simp [subscribeProperty, hp, ho]

/-- Witness for C4 at the section-8 example: `temp` added read-only with
initial 21, the write of 22 fails with NotAllowed, the read still
resolves 21, and subscribing fails with NotAllowed. -/
theorem read_only_not_allowed_witness :
    (alistLookup roThing.properties "temp" = some roProp ∧
      roProp.writable = false ∧ roProp.observable = false) ∧
    writeProperty roThing "temp" (.vInt 22) = ⟨.error .notAllowed, roThing, [], []⟩ ∧
    (readProperty roThing "temp").result = .ok (.vInt 21) ∧
    subscribeProperty roThing "temp" = .error .notAllowed :=
  ⟨⟨rfl, rfl, rfl⟩,
   ((read_only_not_allowed roThing "temp" roProp rfl).1 rfl).1 (.vInt 22),
   ((read_only_not_allowed roThing "temp" roProp rfl).1 rfl).2 rfl,
   (read_only_not_allowed roThing "temp" roProp rfl).2 rfl⟩

/-! ## C5: Actions require an explicit handler -/

/-- C5: an Action added without a handler (and with no wildcard action
handler installed) hard-fails every invocation with HandlerFailure, even
on a schema-valid argument — there is no default action handler. -/
theorem invoke_without_handler_fails (t : Thing) (name : String)
    (frag : ActionFragment) (t2 : Thing) (h : addAction t name frag = .ok t2)
    (hwild : t.anyActionHandler = none) (arg : Value)
    (hin : validateOpt frag.input arg = true) :
    invokeAction t2 name arg = ⟨.error .handlerFailure, t2, [], []⟩ := by
  cases hl : alistLookup t.actions name with
  | some a => simp [addAction, hl] at h
  | none =>
      simp [addAction, hl] at h
      subst h
      have hlook := alistLookup_append_of_none t.actions name
        ⟨frag.input, frag.output, none⟩ hl
      simp [invokeAction, hlook, inputOk, hin, resolvedAction, hwild]

/-- Witness for C5 at the section-8 example: `reset` (input null, output
boolean) added without a handler; invoking it with null fails with
HandlerFailure. -/
theorem invoke_without_handler_fails_witness :
    ∃ t2, addAction emptyThing "reset" resetFragment = .ok t2 ∧
      validateOpt resetFragment.input .vNull = true ∧
      invokeAction t2 "reset" .vNull = ⟨.error .handlerFailure, t2, [], []⟩ :=
  ⟨_, rfl, by decide,
   invoke_without_handler_fails emptyThing "reset" resetFragment _ rfl rfl .vNull
     (by decide)⟩

/-! ## C3: building a TD and consuming it is the identity on the store -/

theorem strList_map (ks : List String) : strList (ks.map Value.vStr) = some ks := by
  induction ks with
  | nil => rfl
  | cons k ks ih => simp [strList, ih]

theorem ofNat_not_neg (n : Nat) : ¬ ((n : Int) < 0) :=
  Int.not_lt.mpr (Int.natCast_nonneg n)

theorem schemaJson_roundAux (n : Nat) :
    (∀ s : DataSchema, valueSize (schemaToJson s) ≤ n →
      jsonToSchemaF n (schemaToJson s) = some s) ∧
    (∀ props : List (String × DataSchema),
      valueFieldsSize (schemaPropsJson props) ≤ n →
      jsonToSchemaPropsF n (schemaPropsJson props) = some props) := by
  induction n with
  | zero =>
      constructor
      · intro s hs
        simp only [schemaToJson, valueSize] at hs
        omega
      · intro props hp
        cases props with
        | nil =>
            simp only [schemaPropsJson, valueFieldsSize] at hp
            omega
        | cons hd tl =>
            obtain ⟨k, s⟩ := hd
            simp only [schemaPropsJson, valueFieldsSize, valueSize] at hp
            omega
  | succ m ih =>
      obtain ⟨ihS, ihP⟩ := ih
      constructor
      · intro s hs
        cases s with
        | boolS c e =>
            cases c <;> cases e <;>
              simp [schemaToJson, schemaFieldsJson, jsonToSchemaF, parseEnumField,
                lookupField, constJson, enumJson, optField]
        | intS c e lo hi =>
            cases c <;> cases e <;> cases lo <;> cases hi <;>
              simp [schemaToJson, schemaFieldsJson, jsonToSchemaF, parseEnumField,
                parseIntField, lookupField, constJson, enumJson, intBoundJson, optField]
        | numS c e lo hi =>
            cases c <;> cases e <;> cases lo <;> cases hi <;>
              simp [schemaToJson, schemaFieldsJson, jsonToSchemaF, parseEnumField,
                parseIntField, lookupField, constJson, enumJson, intBoundJson, optField]
        | strS c e =>
            cases c <;> cases e <;>
              simp [schemaToJson, schemaFieldsJson, jsonToSchemaF, parseEnumField,
                lookupField, constJson, enumJson, optField]
        | nullS c e =>
            cases c <;> cases e <;>
              simp [schemaToJson, schemaFieldsJson, jsonToSchemaF, parseEnumField,
                lookupField, constJson, enumJson, optField]
        | objS c e props req =>
            have hsz : valueFieldsSize (schemaPropsJson props) ≤ m := by
              simp only [schemaToJson, schemaFieldsJson, valueSize, valueFieldsSize] at hs
              omega
            have hrec := ihP props hsz
            cases c <;> cases e <;> cases req <;>
              simp [schemaToJson, schemaFieldsJson, jsonToSchemaF, parseEnumField,
                parseReqField, lookupField, constJson, enumJson, reqJson, optField,
                strList_map, hrec]
        | arrS c e items lo hi =>
            have hsz : valueSize (schemaToJson items) ≤ m := by
              simp only [schemaToJson, schemaFieldsJson, valueSize, valueFieldsSize] at hs ⊢
              omega
            have hrec : jsonToSchemaF m (.vObj (schemaFieldsJson items)) = some items :=
              ihS items hsz
            cases c <;> cases e <;> cases lo <;> cases hi <;>
              simp [schemaToJson, schemaFieldsJson, jsonToSchemaF, parseEnumField,
                parseNatField, lookupField, constJson, enumJson, natBoundJson, optField,
                ofNat_not_neg, hrec]
      · intro props hp
        cases props with
        | nil => simp [schemaPropsJson, jsonToSchemaPropsF]
        | cons hd tl =>
            obtain ⟨k, s⟩ := hd
            have h1 : valueSize (schemaToJson s) ≤ m := by
              simp only [schemaPropsJson, valueFieldsSize, valueSize, schemaToJson] at hp ⊢
              omega
            have h2 : valueFieldsSize (schemaPropsJson tl) ≤ m := by
              simp only [schemaPropsJson, valueFieldsSize, valueSize] at hp
              omega
            have h3 : jsonToSchemaF m (.vObj (schemaFieldsJson s)) = some s := ihS s h1
            have h4 : jsonToSchemaPropsF m (schemaPropsJson tl) = some tl := ihP tl h2
            simp [schemaPropsJson, jsonToSchemaPropsF, h3, h4]

theorem jsonToSchema_round (s : DataSchema) :
    jsonToSchema (schemaToJson s) = some s :=
  (schemaJson_roundAux (valueSize (schemaToJson s))).1 s (le_refl _)

theorem parsePropertyTD_round (p : PropertyState) :
    parsePropertyTD (propertyTD p) = some (consumedOfProperty p) := by
  simp [propertyTD, parsePropertyTD, lookupField, jsonToSchema_round, consumedOfProperty]

theorem parseActionTD_round (a : ActionState) :
    parseActionTD (actionTD a) = some (consumedOfAction a) := by
  cases hi : a.input <;> cases ho : a.output <;>
    simp [actionTD, parseActionTD, optField, lookupField, parseOptSchema,
      jsonToSchema_round, consumedOfAction, hi, ho]

theorem parsePropsTD_round (ps : List (String × PropertyState)) :
    parsePropsTD (ps.map (fun kv => (kv.1, propertyTD kv.2)))
      = some (ps.map (fun kv => (kv.1, consumedOfProperty kv.2))) := by
  induction ps with
  | nil => rfl
  | cons hd tl ih =>
      obtain ⟨k, p⟩ := hd
      simp [parsePropsTD, parsePropertyTD_round, ih]

theorem parseActionsTD_round (acts : List (String × ActionState)) :
    parseActionsTD (acts.map (fun kv => (kv.1, actionTD kv.2)))
      = some (acts.map (fun kv => (kv.1, consumedOfAction kv.2))) := by
  induction acts with
  | nil => rfl
  | cons hd tl ih =>
      obtain ⟨k, a⟩ := hd
      simp [parseActionsTD, parseActionTD_round, ih]

/-- C3: consuming the TD built from any Interaction Store reproduces the
equivalent store — the same interaction names, the same schemas, and the
same writable/observable flags — with handlers (and the value cache)
excluded. -/
theorem consume_build_roundtrip (t : Thing) :
    consumeTD (buildTD t) = some (consumedOfThing t) := by
  simp [buildTD, consumeTD, lookupField, parsePropsTD_round, parseActionsTD_round,
    consumedOfThing, List.map_map, Function.comp]

/-! ## C6: local discovery -/

/-- C6: with method `local` and a fragment, discovery draws candidates
only from the process's own registry and emits exactly the Things every
present fragment field of which compares equal to the candidate's
corresponding field (absent fields impose no constraint), as a finite
completing sequence. -/
theorem discover_local_matches (filter : ThingFilter) (registry : List Thing)
    (f : FragmentTemplate) (hm : filter.method = some .localM)
    (hf : filter.fragment = some f) :
    ∃ l, discover filter registry = some l ∧
      ∀ t, t ∈ l ↔ (t ∈ registry ∧ fragMatchesThing f t = true) := by
  refine ⟨registry.filter (fun t => filterMatches filter.fragment t),
    by simp [discover, hm], ?_⟩
  intro t
  simp [List.mem_filter, filterMatches, hf]

/-- Witness for C6 at the section-8 example: the filter
`{method: local, fragment: {name: lamp1}}` over the registry holding
lamp1 and lamp2 yields exactly the single-element sequence of lamp1. -/
theorem discover_local_matches_witness :
    (lampFilter.method = some .localM ∧ lampFilter.fragment = some lampTemplate) ∧
    (∃ l, discover lampFilter [lamp1, lamp2] = some l ∧
      ∀ t, t ∈ l ↔ (t ∈ [lamp1, lamp2] ∧ fragMatchesThing lampTemplate t = true)) ∧
    discover lampFilter [lamp1, lamp2] = some [lamp1] :=
  ⟨⟨rfl, rfl⟩,
   discover_local_matches lampFilter [lamp1, lamp2] lampTemplate rfl rfl,
   rfl⟩

/-! ## C7: the DataSchema variant is closed over seven kinds -/

/-- C7: DataSchema is a closed variant over exactly boolean, integer,
number, string, object, array and null; each variant's `type` tag is the
string of its kind; the shared `const` and `enum` fields are carried by
every variant. -/
theorem dataschema_closed_variant :
    (∀ s : DataSchema, s.typeTag ∈
      (["boolean", "integer", "number", "string", "object", "array", "null"] :
        List String)) ∧
    (∀ (c : Option Value) (e : Option (List Value)) (lo hi : Option Int)
        (props : List (String × DataSchema)) (req : Option (List String))
        (items : DataSchema) (mi ma : Option Nat),
      (DataSchema.boolS c e).typeTag = "boolean" ∧
      (DataSchema.intS c e lo hi).typeTag = "integer" ∧
      (DataSchema.numS c e lo hi).typeTag = "number" ∧
      (DataSchema.strS c e).typeTag = "string" ∧
      (DataSchema.objS c e props req).typeTag = "object" ∧
      (DataSchema.arrS c e items mi ma).typeTag = "array" ∧
      (DataSchema.nullS c e).typeTag = "null" ∧
      (DataSchema.boolS c e).constOf = c ∧ (DataSchema.boolS c e).enumOf = e ∧
      (DataSchema.intS c e lo hi).constOf = c ∧ (DataSchema.intS c e lo hi).enumOf = e ∧
      (DataSchema.numS c e lo hi).constOf = c ∧ (DataSchema.numS c e lo hi).enumOf = e ∧
      (DataSchema.strS c e).constOf = c ∧ (DataSchema.strS c e).enumOf = e ∧
      (DataSchema.objS c e props req).constOf = c ∧
      (DataSchema.objS c e props req).enumOf = e ∧
      (DataSchema.arrS c e items mi ma).constOf = c ∧
      (DataSchema.arrS c e items mi ma).enumOf = e ∧
      (DataSchema.nullS c e).constOf = c ∧ (DataSchema.nullS c e).enumOf = e) := by
  constructor
  · intro s
    cases s <;> simp [DataSchema.typeTag]
  · intro c e lo hi props req items mi ma
    simp [DataSchema.typeTag, DataSchema.constOf, DataSchema.enumOf]

/-! ## C8: the Security variant is closed over eight schemes -/

/-- C8: Security (the revision of src/unnamed/part_001) is a closed
variant over exactly the eight schemes nosec, basic, digest, bearer, pop
(proof-of-possession), apikey, oauth2 and psk (pre-shared-key); in
particular the no-security scheme `nosec` is a member of the variant. -/
theorem security_closed_variant :
    (∀ s : Security, s.schemeTag ∈
      (["nosec", "basic", "digest", "bearer", "pop", "apikey", "oauth2", "psk"] :
        List String)) ∧
    (∃ s : Security, s.schemeTag = "nosec") ∧
    (∃ s : Security, s.schemeTag = "basic") ∧
    (∃ s : Security, s.schemeTag = "digest") ∧
    (∃ s : Security, s.schemeTag = "bearer") ∧
    (∃ s : Security, s.schemeTag = "pop") ∧
    (∃ s : Security, s.schemeTag = "apikey") ∧
    (∃ s : Security, s.schemeTag = "oauth2") ∧
    (∃ s : Security, s.schemeTag = "psk") := by
  refine ⟨fun s => ?_,
    ⟨.nosec none none, rfl⟩,
    ⟨.basic none none "header" none, rfl⟩,
    ⟨.digest none none "header" "auth" none, rfl⟩,
    ⟨.bearer none none "ES256" "jwt" "header" none, rfl⟩,
    ⟨.pop none none "ES256" "jwt" "header" none, rfl⟩,
    ⟨.apikey none none "query" none, rfl⟩,
    ⟨.oauth2 none none "https://auth.example" none "implicit", rfl⟩,
    ⟨.psk none none, rfl⟩⟩
  cases s <;> simp [Security.schemeTag]

/-! ## C9: the declared promise type of a property write -/

/-- Counterexample to C9 as frozen: ThingProperty.write — the write
operation of the scripting surface (src/index.d.ts line 170) — is
declared to return Promise<void>, which is not Promise<any>. -/
theorem write_promise_counterexample :
    sigThingPropertyWrite.ret = Ty.promiseT .voidT ∧
    Ty.promiseT .voidT ≠ Ty.promiseT .anyT :=
  ⟨rfl, by decide⟩

/-- C9 (amended): reads and invocations promise `any`, and the older
ConsumedThing.setProperty write surface promises `any` — as does the
current PropertyWriteHandler callback — but the current
ThingProperty.write itself promises `void`, so its caller gets no value. -/
theorem write_promise_types :
    sigThingPropertyWrite.ret = Ty.promiseT .voidT ∧
    sigConsumedThingSetProperty.ret = Ty.promiseT .anyT ∧
    sigPropertyWriteHandler.ret = Ty.promiseT .anyT ∧
    sigThingPropertyRead.ret = Ty.promiseT .anyT ∧
    sigThingActionInvoke.ret = Ty.promiseT .anyT ∧
    sigConsumedThingGetProperty.ret = Ty.promiseT .anyT ∧
    sigPropertyWriteHandlerOld.ret = Ty.promiseT .voidT :=
  ⟨rfl, rfl, rfl, rfl, rfl, rfl, rfl⟩

/-! ## C10: mutators hand back the same Thing reference -/

theorem onThing_same_ref (reg : Registry) (ref : Nat)
    (f : Thing → Except WoTError Thing) (reg2 : Registry) (r2 : Nat)
    (h : onThing reg ref f = .ok (reg2, r2)) : r2 = ref := by
  unfold onThing at h
  cases hl : regLookup reg ref with
  | none => rw [hl] at h; cases h
  | some t =>
      rw [hl] at h
      simp only at h
      cases hf : f t with
      | ok t2 =>
          rw [hf] at h
          simp only [Except.ok.injEq, Prod.mk.injEq] at h
          exact h.2.symm
      | error e => rw [hf] at h; cases h

/-- C10: every mutator and handler setter of the chaining API, whenever
it succeeds, hands back the very same Thing reference it was called on,
so calls compose by chaining on the identical Thing. -/
theorem mutators_return_same_reference (reg : Registry) (ref : Nat) :
    (∀ name frag init reg2 r2,
        apiAddProperty reg ref name frag init = .ok (reg2, r2) → r2 = ref) ∧
    (∀ name reg2 r2, apiRemoveProperty reg ref name = .ok (reg2, r2) → r2 = ref) ∧
    (∀ name frag reg2 r2, apiAddAction reg ref name frag = .ok (reg2, r2) → r2 = ref) ∧
    (∀ name reg2 r2, apiRemoveAction reg ref name = .ok (reg2, r2) → r2 = ref) ∧
    (∀ name frag reg2 r2, apiAddEvent reg ref name frag = .ok (reg2, r2) → r2 = ref) ∧
    (∀ name reg2 r2, apiRemoveEvent reg ref name = .ok (reg2, r2) → r2 = ref) ∧
    (∀ name h reg2 r2,
        apiSetPropertyReadHandler reg ref name h = .ok (reg2, r2) → r2 = ref) ∧
    (∀ name h reg2 r2,
        apiSetPropertyWriteHandler reg ref name h = .ok (reg2, r2) → r2 = ref) ∧
    (∀ name h reg2 r2,
        apiSetActionHandler reg ref name h = .ok (reg2, r2) → r2 = ref) :=
  ⟨fun _ _ _ _ _ h => onThing_same_ref _ _ _ _ _ h,
   fun _ _ _ h => onThing_same_ref _ _ _ _ _ h,
   fun _ _ _ _ h => onThing_same_ref _ _ _ _ _ h,
   fun _ _ _ h => onThing_same_ref _ _ _ _ _ h,
   fun _ _ _ _ h => onThing_same_ref _ _ _ _ _ h,
   fun _ _ _ h => onThing_same_ref _ _ _ _ _ h,
   fun _ _ _ _ h => onThing_same_ref _ _ _ _ _ h,
   fun _ _ _ _ h => onThing_same_ref _ _ _ _ _ h,
   fun _ _ _ _ h => onThing_same_ref _ _ _ _ _ h⟩

/-- Witness for C10: on the demo registry, each of the nine operations
succeeds and hands reference 0 back. -/
theorem mutators_return_same_reference_witness :
    (∃ out, apiAddProperty demoRegistry 0 "hum" roFragment none = .ok out ∧
      out.2 = 0) ∧
    (∃ out, apiRemoveProperty demoRegistry 0 "temp" = .ok out ∧ out.2 = 0) ∧
    (∃ out, apiAddAction demoRegistry 0 "go" ⟨none, none⟩ = .ok out ∧ out.2 = 0) ∧
    (∃ out, apiRemoveAction demoRegistry 0 "reset" = .ok out ∧ out.2 = 0) ∧
    (∃ out, apiAddEvent demoRegistry 0 "ev2" ⟨⟩ = .ok out ∧ out.2 = 0) ∧
    (∃ out, apiRemoveEvent demoRegistry 0 "ev" = .ok out ∧ out.2 = 0) ∧
    (∃ out, apiSetPropertyReadHandler demoRegistry 0 (some "temp")
        (fun _ => .ok (.vInt 0)) = .ok out ∧ out.2 = 0) ∧
    (∃ out, apiSetPropertyWriteHandler demoRegistry 0 (some "temp")
        (fun v => .ok v) = .ok out ∧ out.2 = 0) ∧
    (∃ out, apiSetActionHandler demoRegistry 0 (some "reset")
        (fun _ => .ok (.vBool true)) = .ok out ∧ out.2 = 0) :=
  ⟨⟨_, rfl, (mutators_return_same_reference demoRegistry 0).1 "hum" roFragment none _ _ rfl⟩,
   ⟨_, rfl, (mutators_return_same_reference demoRegistry 0).2.1 "temp" _ _ rfl⟩,
   ⟨_, rfl, (mutators_return_same_reference demoRegistry 0).2.2.1 "go" ⟨none, none⟩ _ _ rfl⟩,
   ⟨_, rfl, (mutators_return_same_reference demoRegistry 0).2.2.2.1 "reset" _ _ rfl⟩,
   ⟨_, rfl, (mutators_return_same_reference demoRegistry 0).2.2.2.2.1 "ev2" ⟨⟩ _ _ rfl⟩,
   ⟨_, rfl, (mutators_return_same_reference demoRegistry 0).2.2.2.2.2.1 "ev" _ _ rfl⟩,
   ⟨_, rfl, (mutators_return_same_reference demoRegistry 0).2.2.2.2.2.2.1 (some "temp")
      (fun _ => .ok (.vInt 0)) _ _ rfl⟩,
   ⟨_, rfl, (mutators_return_same_reference demoRegistry 0).2.2.2.2.2.2.2.1 (some "temp")
      (fun v => .ok v) _ _ rfl⟩,
   ⟨_, rfl, (mutators_return_same_reference demoRegistry 0).2.2.2.2.2.2.2.2 (some "reset")
      (fun _ => .ok (.vBool true)) _ _ rfl⟩⟩

end WoT
